import Mathlib

/-!
Verification development for the MMAL port core
(src/interface/mmal/core/mmal_port.c).

The C source is shallowly embedded: every embedded function mirrors the
control flow of the corresponding C function.  Machine state that the C
code keeps behind pointers (the port structure, its core-private part,
buffer headers, the pool used between connected ports) is modelled as
immutable Lean records that each operation threads explicitly.  External
collaborators (the component vtable hooks, the pool allocator, the
monotonic clock) are modelled as oracles: a hook is an optional status
value, where none models a NULL function pointer and some s models a hook
that is present and returns status s.  Component hooks are modelled as
returning a status without mutating the core-private state they cannot
reach; locking is not modelled (the embedding describes the quiescent,
single-threaded semantics of each operation).

Calls into external collaborators and component hooks are additionally
recorded in an event trace returned by each operation, so that statements
of the form "the hook is not called on this path" can be expressed
directly.
-/

namespace MmalPort

/-- Status codes of the MMAL API (MMAL_STATUS_T).  Only the values used by
mmal_port.c are listed; the claims never depend on the others. -/
inductive MSTATUS where
  | SUCCESS
  | ENOMEM
  | ENOSPC
  | EINVAL
  | ENOSYS
  | ECORRUPT
  | ENOTREADY
  | EISCONN
  | ENOTCONN
  | EAGAIN
  | EFAULT
  deriving DecidableEq

/-- Port types (MMAL_PORT_TYPE_T). -/
inductive PortType where
  | CONTROL
  | INPUT
  | OUTPUT
  deriving DecidableEq

/-- Direction selector for the per-port core statistics
(MMAL_CORE_STATS_DIR). -/
inductive StatsDir where
  | RX
  | TX
  deriving DecidableEq

/-- One direction of the core port statistics (MMAL_CORE_STATISTICS_T).
Modelled from the spec: the structure itself is declared in a header that
is not under src/; the spec lists the fields buffer_count,
first_buffer_time, last_buffer_time and max_delay. -/
structure CoreStats where
  buffer_count : Nat
  first_buffer_time : Nat
  last_buffer_time : Nat
  max_delay : Nat
  deriving DecidableEq

/-- The all-zero statistics value (the result of memset 0). -/
def CoreStats.zero : CoreStats := ⟨0, 0, 0, 0⟩

/-- Buffer header (MMAL_BUFFER_HEADER_T), restricted to the fields
mmal_port.c reads or writes.  The payload pointed to by data is modelled
as a list of bytes of length alloc_size; data_null models a NULL data
pointer. -/
structure Buffer where
  cmd : Nat
  data_null : Bool
  alloc_size : Nat
  length : Nat
  offset : Nat
  flags : Nat
  pts : Int
  dts : Int
  payload : List Nat
  deriving DecidableEq

/-- Pool of buffer headers used between connected ports (the parts of
MMAL_POOL_T that mmal_port.c manipulates): the queue of available buffer
headers and the release callback registration.  cb is the pid of the
output port registered as userdata of mmal_port_connected_pool_cb, or
none when no callback is set. -/
structure Pool where
  queue : List Buffer
  cb : Option Nat
  deriving DecidableEq

/-- Which function currently sits in the core's buffer_header_callback
slot. -/
inductive CbSlot where
  | noCb
  | client
  | connectedInput
  | connectedOutput
  deriving DecidableEq

/-- Events recording calls from the core into external collaborators and
component hooks. -/
inductive Event where
  | enableHook (pid : Nat) (cbNull : Bool)
  | disableHook (pid : Nat)
  | sendHook (pid : Nat)
  | setFormatHook (pid : Nat)
  | connectHook (pid : Nat)
  | paramSetHook (pid : Nat)
  | paramGetHook (pid : Nat)
  | bufferRelease
  | poolCreate (pid : Nat)
  | poolDestroy
  deriving DecidableEq

/-- The port, merging the public MMAL_PORT_T fields with its core-private
part MMAL_PORT_PRIVATE_CORE_T.  pid stands for the identity (address) of
the port; connected_port stores the pid of the peer (the pointer), while
operations that dereference the peer receive the peer's state explicitly.
The component vtable hooks are oracles: none is a NULL pointer, some s a
hook returning status s.  transit is the in-transit counter
(transit_buffer_headers, a signed count) and sema the counter of the
transit semaphore (created with count 1, i.e. posted). -/
structure Port where
  pid : Nat
  ptype : PortType
  is_enabled : Bool
  buffer_num : Nat
  buffer_num_min : Nat
  buffer_size : Nat
  buffer_size_min : Nat
  cap_passthrough : Bool
  cap_allocation : Bool
  connected_port : Option Nat
  core_owns_connection : Bool
  allocate_pool : Bool
  pool_for_connection : Option Pool
  cb_slot : CbSlot
  transit : Int
  sema : Int
  stats_rx : CoreStats
  stats_tx : CoreStats
  format : Nat
  format_ptr_copy : Nat
  pf_enable : Option MSTATUS
  pf_disable : Option MSTATUS
  pf_send : Option MSTATUS
  pf_set_format : Option MSTATUS
  pf_connect : Option MSTATUS
  pf_parameter_set : Option MSTATUS
  pf_parameter_get : Option MSTATUS
  deriving DecidableEq

/-- IN_TRANSIT_INCREMENT: under transit_lock, if the pre-increment count
is 0 the semaphore is claimed (wait), then the count is incremented. -/
def in_transit_increment (p : Port) : Port :=
  { p with transit := p.transit + 1,
           sema := if p.transit = 0 then p.sema - 1 else p.sema }

/-- IN_TRANSIT_DECREMENT: under transit_lock, the count is decremented
and, if it reaches 0, the semaphore is posted. -/
def in_transit_decrement (p : Port) : Port :=
  { p with transit := p.transit - 1,
           sema := if p.transit - 1 = 0 then p.sema + 1 else p.sema }

/-- mmal_port_update_port_stats: bump one direction of the core port
statistics; stc is the value returned by the external microsecond clock.
The delay subtraction is the 32-bit unsigned subtraction of the C code. -/
def mmal_port_update_port_stats (p : Port) (dir : StatsDir) (stc : Nat) : Port :=
  let s := match dir with
    | StatsDir.RX => p.stats_rx
    | StatsDir.TX => p.stats_tx
  let s1 : CoreStats := { s with buffer_count := s.buffer_count + 1 }
  let s2 : CoreStats :=
    if s1.first_buffer_time = 0 then
      { s1 with last_buffer_time := stc, first_buffer_time := stc }
    else
      { s1 with
          max_delay := max s1.max_delay ((stc + 2 ^ 32 - s1.last_buffer_time % 2 ^ 32) % 2 ^ 32),
          last_buffer_time := stc }
  match dir with
  | StatsDir.RX => { p with stats_rx := s2 }
  | StatsDir.TX => { p with stats_tx := s2 }

/-- mmal_port_send_buffer.  The NULL-port check of the C code is implicit
(the model only represents valid ports); the remaining control flow is
verbatim: buffer data validation, send-hook presence, the is_enabled
check under send_lock, the length reset for output ports, the in-transit
increment, the send hook call, and on hook failure the symmetric
decrement. -/
def mmal_port_send_buffer (p : Port) (b : Buffer) (stc : Nat) :
    MSTATUS × Port × Buffer × List Event :=
  if b.data_null && !p.cap_passthrough then
    (MSTATUS.EINVAL, p, b, [])
  else
    match p.pf_send with
    | none => (MSTATUS.ENOSYS, p, b, [])
    | some hookStatus =>
      if !p.is_enabled then
        (MSTATUS.EINVAL, p, b, [])
      else
        let b := if p.ptype = PortType.OUTPUT && b.length != 0 then
                   { b with length := 0 } else b
        let p := in_transit_increment p
        let ev := [Event.sendHook p.pid]
        if hookStatus != MSTATUS.SUCCESS then
          (hookStatus, in_transit_decrement p, b, ev)
        else
          (MSTATUS.SUCCESS, mmal_port_update_port_stats p StatsDir.RX stc, b, ev)

/-- mmal_port_connected_pool_cb: reset the buffer header fields, pipe the
buffer back into the output port passed as userdata, and report true to
the pool exactly when the send failed (true means the pool keeps the
buffer). -/
def mmal_port_connected_pool_cb (p : Port) (b : Buffer) (stc : Nat) :
    Bool × Port × Buffer × List Event :=
  let b := { b with cmd := 0, length := 0, offset := 0, flags := 0, pts := 0, dts := 0 }
  let r := mmal_port_send_buffer p b stc
  (r.1 != MSTATUS.SUCCESS, r.2.1, r.2.2.1, r.2.2.2)

/-- Clamp the buffer requirements of one port up to their minima, as the
tail of mmal_port_format_commit does. -/
def clamp_buffer_requirements (p : Port) : Port :=
  let p := if p.buffer_size < p.buffer_size_min then
             { p with buffer_size := p.buffer_size_min } else p
  if p.buffer_num < p.buffer_num_min then
    { p with buffer_num := p.buffer_num_min } else p

/-- mmal_port_format_commit.  outputs is the array
port.component.output of the owning component, clamped as well when the
committed port is an input.  The set_format hook may in reality mutate
the port's buffer requirements (the reason the clamping exists); the
oracle models only its status. -/
def mmal_port_format_commit (p : Port) (outputs : List Port) :
    MSTATUS × Port × List Port × List Event :=
  if p.format != p.format_ptr_copy then
    (MSTATUS.EFAULT, { p with format := p.format_ptr_copy }, outputs, [])
  else
    match p.pf_set_format with
    | none => (MSTATUS.ENOSYS, p, outputs, [])
    | some hookStatus =>
      let ev := [Event.setFormatHook p.pid]
      let p := clamp_buffer_requirements p
      let outputs := if p.ptype = PortType.INPUT then
                       outputs.map clamp_buffer_requirements else outputs
      (hookStatus, p, outputs, ev)

/-- Identifier of the MMAL_PARAMETER_CORE_STATISTICS parameter.  The
numeric value comes from a header outside src/ and is irrelevant to the
claims; only its distinctness from other parameter ids matters. -/
def MMAL_PARAMETER_CORE_STATISTICS : Nat := 0x05000001

/-- The payload of a MMAL_PARAMETER_CORE_STATISTICS_T parameter:
requested direction, reset flag, and the statistics snapshot slot written
by the core. -/
structure CoreStatsParam where
  dir : StatsDir
  reset : Bool
  stats : CoreStats
  deriving DecidableEq

/-- A parameter header (MMAL_PARAMETER_HEADER_T) together with the
CORE_STATISTICS payload it carries when id is
MMAL_PARAMETER_CORE_STATISTICS. -/
structure ParamHeader where
  id : Nat
  core_stats : CoreStatsParam
  deriving DecidableEq

/-- mmal_port_get_core_stats.  The snapshot of the requested direction is
copied out under stats_lock; when the reset flag is set, the source is
cleared with memset(src_stats, 0, sizeof(port.priv.core.stats)).  That
size is the size of the WHOLE two-direction statistics structure, not of
the one direction src_stats points at.  Modelled from the spec: the
layout of MMAL_CORE_PORT_STATISTICS_T (declared outside src/) is
stats.rx followed by stats.tx, in the order the spec lists them.  Under
that layout a reset of the RX direction therefore also zeroes the TX
direction, and a reset of the TX direction overruns into the core state
that follows the statistics (not representable here; only the in-struct
effect is modelled). -/
def mmal_port_get_core_stats (p : Port) (param : CoreStatsParam) :
    MSTATUS × Port × CoreStatsParam :=
  let src := match param.dir with
    | StatsDir.RX => p.stats_rx
    | StatsDir.TX => p.stats_tx
  let param := { param with stats := src }
  if param.reset then
    match param.dir with
    | StatsDir.RX =>
      (MSTATUS.SUCCESS, { p with stats_rx := CoreStats.zero, stats_tx := CoreStats.zero }, param)
    | StatsDir.TX =>
      (MSTATUS.SUCCESS, { p with stats_tx := CoreStats.zero }, param)
  else
    (MSTATUS.SUCCESS, p, param)

/-- mmal_port_private_parameter_get: the only core-defined readable
parameter is CORE_STATISTICS. -/
def mmal_port_private_parameter_get (p : Port) (param : ParamHeader) :
    MSTATUS × Port × ParamHeader :=
  if param.id = MMAL_PARAMETER_CORE_STATISTICS then
    let r := mmal_port_get_core_stats p param.core_stats
    (r.1, r.2.1, { param with core_stats := r.2.2 })
  else
    (MSTATUS.ENOSYS, p, param)

/-- mmal_port_private_parameter_set: the core defines no writable private
parameter. -/
def mmal_port_private_parameter_set (p : Port) (param : ParamHeader) :
    MSTATUS × Port × ParamHeader :=
  (MSTATUS.ENOSYS, p, param)

/-- mmal_port_parameter_get: status starts as ENOSYS, the component hook
(if any) runs first, and when the resulting status is ENOSYS the core's
private parameters are tried. -/
def mmal_port_parameter_get (p : Port) (param : ParamHeader) :
    MSTATUS × Port × ParamHeader × List Event :=
  let hr : MSTATUS × List Event := match p.pf_parameter_get with
    | some s => (s, [Event.paramGetHook p.pid])
    | none => (MSTATUS.ENOSYS, [])
  if hr.1 = MSTATUS.ENOSYS then
    let r := mmal_port_private_parameter_get p param
    (r.1, r.2.1, r.2.2, hr.2)
  else
    (hr.1, p, param, hr.2)

/-- mmal_port_parameter_set: same fall-through structure as
mmal_port_parameter_get. -/
def mmal_port_parameter_set (p : Port) (param : ParamHeader) :
    MSTATUS × Port × ParamHeader × List Event :=
  let hr : MSTATUS × List Event := match p.pf_parameter_set with
    | some s => (s, [Event.paramSetHook p.pid])
    | none => (MSTATUS.ENOSYS, [])
  if hr.1 = MSTATUS.ENOSYS then
    let r := mmal_port_private_parameter_set p param
    (r.1, r.2.1, r.2.2, hr.2)
  else
    (hr.1, p, param, hr.2)

/-- Identifier of the MMAL_EVENT_FORMAT_CHANGED event (fourcc EFCH,
declared outside src/; the exact value is irrelevant to the claims). -/
def MMAL_EVENT_FORMAT_CHANGED : Nat := 0x48434645

/-- mmal_port_event_get.  drawn is the buffer obtained from the
component's event pool queue (none when the queue is empty); the three
size arguments are the byte sizes of the external structures
MMAL_EVENT_FORMAT_CHANGED_T, MMAL_ES_FORMAT_T and
MMAL_ES_SPECIFIC_FORMAT_T.  The result carries the buffer handed back to
the caller (none on failure, matching the NULL stored through the out
parameter). -/
def mmal_port_event_get (szFormatChangedEvent szEsFormat szEsSpecific : Nat)
    (drawn : Option Buffer) (eventId : Nat) :
    MSTATUS × Option Buffer × List Event :=
  match drawn with
  | none => (MSTATUS.ENOSPC, none, [])
  | some b =>
    let b := { b with cmd := eventId, length := 0 }
    if eventId = MMAL_EVENT_FORMAT_CHANGED then
      let size := szFormatChangedEvent + szEsFormat + szEsSpecific
      if b.alloc_size < size then
        (MSTATUS.ENOSPC, none, [Event.bufferRelease])
      else
        let b := { b with
          payload := b.payload.mapIdx (fun i v => if i < size then 0 else v),
          length := size }
        (MSTATUS.SUCCESS, some b, [])
    else
      (MSTATUS.SUCCESS, some b, [])

/-- Resources a port owns: the format object, the five synchronisation
primitives created by mmal_port_alloc, and the port memory itself. -/
inductive Resource where
  | formatObject
  | transitSema
  | transitLock
  | sendLock
  | portLock
  | statsLock
  | portMemory
  deriving DecidableEq

/-- The synchronisation primitives and other resources acquired by
mmal_port_alloc, in creation order (port lock, send_lock, transit_lock,
transit_sema, stats_lock, then the format object; the port memory is the
initial calloc). -/
def mmal_port_alloc_resources : List Resource :=
  [Resource.portMemory, Resource.portLock, Resource.sendLock,
   Resource.transitLock, Resource.transitSema, Resource.statsLock,
   Resource.formatObject]

/-- mmal_port_free, as the list of resources it releases: a null port
releases nothing; otherwise the format object, transit_sema,
transit_lock, send_lock and the port lock are deleted in that order and
the port memory is freed.  The stats_lock does not appear in the C
function. -/
def mmal_port_free (port : Option Port) : List Resource :=
  match port with
  | none => []
  | some _ =>
    [Resource.formatObject, Resource.transitSema, Resource.transitLock,
     Resource.sendLock, Resource.portLock, Resource.portMemory]

/-- mmal_port_set_input_or_output applied to both arguments of
mmal_port_connect: returns the (input, output) selection.  As in the C
code, when both ports have the same type the later assignment wins, and a
slot left NULL is returned as none. -/
def set_input_or_output (p other : Port) : Option Port × Option Port :=
  let sel : Port → Option Port × Option Port → Option Port × Option Port :=
    fun q r =>
      if q.ptype = PortType.INPUT then (some q, r.2)
      else if q.ptype = PortType.OUTPUT then (r.1, some q)
      else r
  sel other (sel p (none, none))

/-- mmal_port_connect.  The NULL-port checks are implicit; the pf_connect
presence check, the input/output classification, the already-connected
and already-enabled rejections, the symmetric wiring and the
component-versus-core ownership decision follow the source.  The result
returns the two arguments in order (port, other_port). -/
def mmal_port_connect (p other : Port) : MSTATUS × Port × Port × List Event :=
  if p.pf_connect = none || other.pf_connect = none then
    (MSTATUS.ENOSYS, p, other, [])
  else
    match set_input_or_output p other with
    | (some _, some outp) =>
      if p.connected_port.isSome || other.connected_port.isSome then
        (MSTATUS.EISCONN, p, other, [])
      else if p.is_enabled || other.is_enabled then
        (MSTATUS.EINVAL, p, other, [])
      else
        let p1 := { p with connected_port := some other.pid,
                           core_owns_connection := false }
        let o1 := { other with connected_port := some p.pid,
                               core_owns_connection := false }
        let p1 := if p1.ptype = PortType.OUTPUT then
                    { p1 with allocate_pool := false } else p1
        let o1 := if o1.ptype = PortType.OUTPUT then
                    { o1 with allocate_pool := false } else o1
        let ev := [Event.connectHook outp.pid]
        let hookStatus := (if p.ptype = PortType.OUTPUT then p.pf_connect
                           else other.pf_connect).getD MSTATUS.ENOSYS
        if hookStatus = MSTATUS.SUCCESS then
          (MSTATUS.SUCCESS, p1, o1, ev)
        else
          let p1 := { p1 with core_owns_connection := true }
          let o1 := { o1 with core_owns_connection := true }
          let p1 := if p1.ptype = PortType.OUTPUT then
                      { p1 with allocate_pool := true } else p1
          let o1 := if o1.ptype = PortType.OUTPUT then
                      { o1 with allocate_pool := true } else o1
          (MSTATUS.SUCCESS, p1, o1, ev)
    | _ => (MSTATUS.EINVAL, p, other, [])

/-- External inputs of the enable path: the result of
mmal_port_pool_create (none models allocation failure) and the
microsecond clock sample used for statistics. -/
structure Env where
  pool_create : Option Pool
  stc : Nat

/-- Loop body of mmal_port_populate_from_pool: pull n buffer headers off
the pool queue and send each into the port, stopping at the first
failure.  A send failure releases the buffer just pulled. -/
def populate_loop (p : Port) (queue : List Buffer) (n : Nat) (stc : Nat) :
    MSTATUS × Port × List Buffer × List Event :=
  match n with
  | 0 => (MSTATUS.SUCCESS, p, queue, [])
  | n + 1 =>
    match queue with
    | [] => (MSTATUS.ENOMEM, p, [], [])
    | b :: rest =>
      let r := mmal_port_send_buffer p b stc
      if r.1 != MSTATUS.SUCCESS then
        (r.1, r.2.1, rest, r.2.2.2 ++ [Event.bufferRelease])
      else
        let r2 := populate_loop r.2.1 rest n stc
        (r2.1, r2.2.1, r2.2.2.1, r.2.2.2 ++ r2.2.2.2)

/-- mmal_port_populate_from_pool: put port.buffer_num buffers from the
pool into the output port. -/
def mmal_port_populate_from_pool (p : Port) (queue : List Buffer) (stc : Nat) :
    MSTATUS × Port × List Buffer × List Event :=
  if p.pf_send = none then (MSTATUS.ENOSYS, p, queue, [])
  else populate_loop p queue p.buffer_num stc

/-- Buffer negotiation step at the top of mmal_port_enable_locked: when
the port is connected and is the output side, adopt the maxima of the
peer's and its own buffer_num and buffer_size. -/
def adopt_peer_geometry (p : Port) (peer : Option Port) : Port :=
  match peer with
  | some q =>
    if p.ptype = PortType.OUTPUT then
      { p with
          buffer_num := if q.buffer_num > p.buffer_num then
                          q.buffer_num else p.buffer_num,
          buffer_size := if q.buffer_size > p.buffer_size then
                           q.buffer_size else p.buffer_size }
    else p
  | none => p

mutual

/-- mmal_port_enable_locked.  peer is the port referenced by the
core-private connected_port pointer at entry (none when disconnected);
the mutated peer is returned alongside the port.  cb is the presence of
the client callback (a NULL callback argument is false).  The recursion
through the connected-enable routine is bounded in the source by the port
types of a connection; fuel makes that bound explicit, and exhaustion
(unreachable at the depths the source can produce) reports EAGAIN. -/
def mmal_port_enable_locked : Nat → Port → Option Port → Bool → Env →
    MSTATUS × Port × Option Port × List Event
  | 0, p, peer, _, _ => (MSTATUS.EAGAIN, p, peer, [])
  | fuel + 1, p, peer, cb, env =>
    if p.is_enabled then (MSTATUS.EINVAL, p, peer, [])
    else
      let p := adopt_peer_geometry p peer
      if p.buffer_num < p.buffer_num_min then (MSTATUS.EINVAL, p, peer, [])
      else if p.buffer_size < p.buffer_size_min then (MSTATUS.EINVAL, p, peer, [])
      else if peer.isSome = cb then (MSTATUS.EINVAL, p, peer, [])
      else
        let p := { p with cb_slot := if cb then CbSlot.client else CbSlot.noCb }
        let ev := [Event.enableHook p.pid (!cb)]
        let hookStatus := p.pf_enable.getD MSTATUS.EFAULT
        if hookStatus != MSTATUS.SUCCESS then (hookStatus, p, peer, ev)
        else
          let p := { p with is_enabled := true }
          match peer with
          | some q =>
            if p.ptype = PortType.INPUT then
              (MSTATUS.SUCCESS, { p with cb_slot := CbSlot.connectedInput },
               some q, ev)
            else
              let r := mmal_port_enable_locked_connected fuel p q env
              (r.1, r.2.1, some r.2.2.1, ev ++ r.2.2.2)
          | none => (MSTATUS.SUCCESS, p, none, ev)

/-- mmal_port_enable_locked_connected, entry: install
mmal_port_connected_output_cb on the output, then (holding both locks)
disable the input when it is enabled with a different buffer
configuration, and continue with elc_rest. -/
def mmal_port_enable_locked_connected : Nat → Port → Port → Env →
    MSTATUS × Port × Port × List Event
  | 0, outp, inp, _ => (MSTATUS.EAGAIN, outp, inp, [])
  | fuel + 1, outp, inp, env =>
    let outp := { outp with cb_slot := CbSlot.connectedOutput }
    if inp.is_enabled &&
        (inp.buffer_size != outp.buffer_size || inp.buffer_num != outp.buffer_num) then
      let r := mmal_port_disable_locked fuel inp (some outp)
      if r.1 != MSTATUS.SUCCESS then
        elc_finish fuel r.1 outp r.2.1 r.2.2.2
      else
        elc_rest fuel outp r.2.1 env r.2.2.2
    else
      elc_rest fuel outp inp env []

/-- Middle of mmal_port_enable_locked_connected: copy the output's buffer
configuration onto the input and enable the input (with no callback) when
it is not enabled. -/
def elc_rest : Nat → Port → Port → Env → List Event →
    MSTATUS × Port × Port × List Event
  | 0, outp, inp, _, ev0 => (MSTATUS.EAGAIN, outp, inp, ev0)
  | fuel + 1, outp, inp, env, ev0 =>
    let inp := { inp with buffer_size := outp.buffer_size,
                          buffer_num := outp.buffer_num }
    if !inp.is_enabled then
      let r := mmal_port_enable_locked fuel inp (some outp) false env
      let outp := r.2.2.1.getD outp
      if r.1 != MSTATUS.SUCCESS then
        elc_finish fuel r.1 outp r.2.1 (ev0 ++ r.2.2.2)
      else
        elc_pool fuel outp r.2.1 env (ev0 ++ r.2.2.2)
    else
      elc_pool fuel outp inp env ev0

/-- Pool branch of mmal_port_enable_locked_connected: when the output is
marked allocate_pool, choose the hosting side (the output when its
capabilities advertise ALLOCATION, the input otherwise), create the pool
with the locks dropped, attach it with mmal_port_connected_pool_cb
registered against the output, and populate the output from it.  The
source attaches the pool before populating; the model attaches the
post-populate queue, which yields the same final state. -/
def elc_pool : Nat → Port → Port → Env → List Event →
    MSTATUS × Port × Port × List Event
  | 0, outp, inp, _, ev0 => (MSTATUS.EAGAIN, outp, inp, ev0)
  | fuel + 1, outp, inp, env, ev0 =>
    if outp.allocate_pool then
      let poolPortIsOutput := outp.cap_allocation
      let hostPid := if poolPortIsOutput then outp.pid else inp.pid
      let evc := [Event.poolCreate hostPid]
      match env.pool_create with
      | none => elc_finish fuel MSTATUS.ENOMEM outp inp (ev0 ++ evc)
      | some pool =>
        let r := mmal_port_populate_from_pool outp pool.queue env.stc
        let attached : Pool := { queue := r.2.2.1, cb := some outp.pid }
        let outp := r.2.1
        let outp := if poolPortIsOutput then
                      { outp with pool_for_connection := some attached } else outp
        let inp := if poolPortIsOutput then inp
                   else { inp with pool_for_connection := some attached }
        elc_finish fuel r.1 outp inp (ev0 ++ evc ++ r.2.2.2)
    else
      elc_finish fuel MSTATUS.SUCCESS outp inp ev0

/-- finish label of mmal_port_enable_locked_connected: on failure,
disable the input if it ended up enabled, then (after dropping the input
lock) disable the output. -/
def elc_finish : Nat → MSTATUS → Port → Port → List Event →
    MSTATUS × Port × Port × List Event
  | 0, status, outp, inp, ev0 => (status, outp, inp, ev0)
  | fuel + 1, status, outp, inp, ev0 =>
    let ri := if status != MSTATUS.SUCCESS && inp.is_enabled then
                let r := mmal_port_disable_locked fuel inp (some outp)
                (r.2.1, ev0 ++ r.2.2.2)
              else (inp, ev0)
    let inp := ri.1
    if status != MSTATUS.SUCCESS then
      let r := mmal_port_disable_locked fuel outp (some inp)
      (status, r.2.1, r.2.2.1.getD inp, ri.2 ++ r.2.2.2)
    else
      (status, outp, inp, ri.2)

/-- mmal_port_disable_locked.  peer is the port referenced by
connected_port (returned possibly mutated, since disabling a connected
output recursively disables its input peer through the public API).  The
transit drain (wait on transit_sema then repost) blocks until the
in-transit count is zero; in this quiescent model it leaves the counter
and semaphore unchanged. -/
def mmal_port_disable_locked : Nat → Port → Option Port →
    MSTATUS × Port × Option Port × List Event
  | 0, p, peer => (MSTATUS.EAGAIN, p, peer, [])
  | fuel + 1, p, peer =>
    if !p.is_enabled then (MSTATUS.EINVAL, p, peer, [])
    else
      let p := { p with is_enabled := false }
      let p := match p.pool_for_connection with
        | some pool => { p with pool_for_connection := some { pool with cb := none } }
        | none => p
      let ev := [Event.disableHook p.pid]
      let hookStatus := p.pf_disable.getD MSTATUS.EFAULT
      if hookStatus != MSTATUS.SUCCESS then
        (hookStatus, { p with is_enabled := true }, peer, ev)
      else
        let p := { p with cb_slot := CbSlot.noCb }
        match peer with
        | some q =>
          if p.ptype = PortType.OUTPUT then
            let r := mmal_port_disable fuel q (some p)
            (MSTATUS.SUCCESS, r.2.2.1.getD p, some r.2.1, ev ++ r.2.2.2)
          else
            (MSTATUS.SUCCESS, p, some q, ev)
        | none => (MSTATUS.SUCCESS, p, none, ev)

/-- mmal_port_disable (public): requires the disable hook, runs the
locked disable, then detaches and destroys any pool_for_connection
outside the lock.  The pool pointer is cleared even when the locked
disable failed, exactly as in the source. -/
def mmal_port_disable : Nat → Port → Option Port →
    MSTATUS × Port × Option Port × List Event
  | 0, p, peer => (MSTATUS.EAGAIN, p, peer, [])
  | fuel + 1, p, peer =>
    if p.pf_disable = none then (MSTATUS.ENOSYS, p, peer, [])
    else
      let r := mmal_port_disable_locked fuel p peer
      let pool := if r.1 = MSTATUS.SUCCESS then r.2.1.pool_for_connection else none
      let p := { r.2.1 with pool_for_connection := none }
      let ev := r.2.2.2 ++ (match pool with
        | some _ => [Event.poolDestroy]
        | none => [])
      (r.1, p, r.2.2.1, ev)

end

/-- mmal_port_enable (public): requires a valid port and the enable hook,
then runs the locked enable under the port lock. -/
def mmal_port_enable (fuel : Nat) (p : Port) (peer : Option Port) (cb : Bool)
    (env : Env) : MSTATUS × Port × Option Port × List Event :=
  if p.pf_enable = none then (MSTATUS.ENOSYS, p, peer, [])
  else mmal_port_enable_locked fuel p peer cb env

/-- A concrete, fully populated port used to instantiate theorems. -/
def basePort : Port :=
  { pid := 1
    ptype := PortType.OUTPUT
    is_enabled := false
    buffer_num := 2
    buffer_num_min := 1
    buffer_size := 256
    buffer_size_min := 64
    cap_passthrough := false
    cap_allocation := false
    connected_port := none
    core_owns_connection := false
    allocate_pool := false
    pool_for_connection := none
    cb_slot := CbSlot.noCb
    transit := 0
    sema := 1
    stats_rx := CoreStats.zero
    stats_tx := CoreStats.zero
    format := 100
    format_ptr_copy := 100
    pf_enable := some MSTATUS.SUCCESS
    pf_disable := some MSTATUS.SUCCESS
    pf_send := some MSTATUS.SUCCESS
    pf_set_format := some MSTATUS.SUCCESS
    pf_connect := some MSTATUS.ENOSYS
    pf_parameter_set := none
    pf_parameter_get := none }

/-- A concrete buffer header used to instantiate theorems. -/
def baseBuffer : Buffer :=
  { cmd := 0
    data_null := false
    alloc_size := 8
    length := 4
    offset := 0
    flags := 0
    pts := 0
    dts := 0
    payload := [1, 2, 3, 4, 5, 6, 7, 8] }

/-- A disabled port whose component supplies no send hook. -/
def portNoSendHook : Port := { basePort with pf_send := none }

/-- An enabled port whose send hook fails with ENOMEM. -/
def portFailingSend : Port :=
  { basePort with is_enabled := true, transit := 0, pf_send := some MSTATUS.ENOMEM }

/-- A concrete input port. -/
def portInput : Port := { basePort with pid := 2, ptype := PortType.INPUT }

/-- A port whose public format pointer was clobbered by component code. -/
def portClobbered : Port := { basePort with format := 101 }

/-- A nonzero statistics value for one direction. -/
def statsExample : CoreStats := ⟨7, 11, 22, 6⟩

/-- A port with distinct nonzero statistics in both directions. -/
def portWithStats : Port :=
  { basePort with stats_rx := ⟨3, 10, 20, 5⟩, stats_tx := statsExample }

/-- A CORE_STATISTICS read of the RX direction with the reset flag set. -/
def paramResetRx : ParamHeader :=
  { id := MMAL_PARAMETER_CORE_STATISTICS,
    core_stats := { dir := StatsDir.RX, reset := true, stats := CoreStats.zero } }

/-- A CORE_STATISTICS read of the TX direction without reset. -/
def paramReadTx : ParamHeader :=
  { id := MMAL_PARAMETER_CORE_STATISTICS,
    core_stats := { dir := StatsDir.TX, reset := false, stats := CoreStats.zero } }

/-- An environment in which pool creation fails. -/
def env0 : Env := { pool_create := none, stc := 0 }

/-- An output port whose own buffer_num is below its minimum. -/
def portSmallNum : Port := { basePort with buffer_num := 2, buffer_num_min := 5 }

/-- A peer input port whose buffer_num is larger but still below the
output's minimum. -/
def portPeerNum : Port := { portInput with buffer_num := 3 }

end MmalPort

namespace MmalPort

/-- Claim C1, counterexample.  The claim quantifies over every port, but a
disabled port whose component supplies no send hook makes
mmal_port_send_buffer return ENOSYS (NOT_IMPLEMENTED), not EINVAL
(INVALID): the send-hook presence check precedes the is_enabled check. -/
theorem C1_counterexample_no_send_hook :
    portNoSendHook.is_enabled = false ∧
    (mmal_port_send_buffer portNoSendHook baseBuffer 0).1 = MSTATUS.ENOSYS ∧
    MSTATUS.ENOSYS ≠ MSTATUS.EINVAL := by
  decide

/-- Claim C1 (amended: the port has a send hook).  For every port with a
send hook and every buffer: a send to a disabled port returns EINVAL with
the in-transit counter unchanged; and when the send hook is reached and
fails, the status is propagated and the in-transit counter and transit
semaphore are restored to their pre-call values (the decrement posting
the semaphore exactly on the 1-to-0 transition undoes the increment). -/
theorem C1_send_buffer_disabled_and_hook_failure
    (p : Port) (b : Buffer) (stc : Nat) (s : MSTATUS)
    (hs : p.pf_send = some s) :
    (p.is_enabled = false →
      (mmal_port_send_buffer p b stc).1 = MSTATUS.EINVAL ∧
      (mmal_port_send_buffer p b stc).2.1.transit = p.transit) ∧
    (p.is_enabled = true →
      (b.data_null && !p.cap_passthrough) = false →
      s ≠ MSTATUS.SUCCESS →
      (mmal_port_send_buffer p b stc).1 = s ∧
      (mmal_port_send_buffer p b stc).2.1.transit = p.transit ∧
      (mmal_port_send_buffer p b stc).2.1.sema = p.sema) := by
  constructor
  · intro hen
    by_cases hd : (b.data_null && !p.cap_passthrough) = true
    · simp [mmal_port_send_buffer, hd]
    · simp only [Bool.not_eq_true] at hd
      simp [mmal_port_send_buffer, hd, hs, hen]
  · intro hen hd hfail
    have hfail' : (s != MSTATUS.SUCCESS) = true := by
      simpa [bne_iff_ne] using hfail
    simp only [mmal_port_send_buffer, hd, hs, hen, hfail', Bool.false_eq_true,
      if_false, if_true, Bool.not_true, in_transit_increment, in_transit_decrement]
    refine ⟨by simp, by simp, ?_⟩
    by_cases ht : p.transit = 0 <;> simp [ht]

/-- Claim C1, witness: the amended theorem applied to a concrete enabled
port whose send hook fails with ENOMEM. -/
theorem C1_witness :
    (mmal_port_send_buffer portFailingSend baseBuffer 0).1 = MSTATUS.ENOMEM ∧
    (mmal_port_send_buffer portFailingSend baseBuffer 0).2.1.transit
      = portFailingSend.transit ∧
    (mmal_port_send_buffer portFailingSend baseBuffer 0).2.1.sema
      = portFailingSend.sema :=
  (C1_send_buffer_disabled_and_hook_failure portFailingSend baseBuffer 0
      MSTATUS.ENOMEM rfl).2 rfl rfl (by decide)

/-- The buffer handed back by mmal_port_send_buffer is either the input
buffer or the input buffer with its length reset to zero. -/
theorem send_buffer_result_buffer (p : Port) (b : Buffer) (stc : Nat) :
    (mmal_port_send_buffer p b stc).2.2.1 = b ∨
    (mmal_port_send_buffer p b stc).2.2.1 = { b with length := 0 } := by
  unfold mmal_port_send_buffer
  split
  · exact Or.inl rfl
  · cases hps : p.pf_send with
    | none => exact Or.inl rfl
    | some s =>
      by_cases hen : p.is_enabled
      · by_cases hlen : (p.ptype = PortType.OUTPUT && b.length != 0) = true
        · simp only [hen, hlen, Bool.not_true, Bool.false_eq_true, if_false, if_true]
          split <;> exact Or.inr rfl
        · simp only [Bool.not_eq_true] at hlen
          simp only [hen, hlen, Bool.not_true, Bool.false_eq_true, if_false, if_true]
          split <;> exact Or.inl rfl
      · simp [hen]

/-- Claim C2 is about mmal_port_enable_locked; claim C3 follows here.
Claim C3: mmal_port_connected_pool_cb zeroes the cmd, length, offset,
flags, pts and dts fields of the buffer, recycles it into the output port
passed as userdata via mmal_port_send_buffer, and returns true exactly
when that send failed. -/
theorem C3_connected_pool_cb_resets_and_recycles (p : Port) (b : Buffer) (stc : Nat) :
    ((mmal_port_connected_pool_cb p b stc).1 = true ↔
      (mmal_port_send_buffer p
        { b with cmd := 0, length := 0, offset := 0, flags := 0, pts := 0, dts := 0 }
        stc).1 ≠ MSTATUS.SUCCESS) ∧
    (mmal_port_connected_pool_cb p b stc).2.1 =
      (mmal_port_send_buffer p
        { b with cmd := 0, length := 0, offset := 0, flags := 0, pts := 0, dts := 0 }
        stc).2.1 ∧
    ((mmal_port_connected_pool_cb p b stc).2.2.1.cmd = 0 ∧
     (mmal_port_connected_pool_cb p b stc).2.2.1.length = 0 ∧
     (mmal_port_connected_pool_cb p b stc).2.2.1.offset = 0 ∧
     (mmal_port_connected_pool_cb p b stc).2.2.1.flags = 0 ∧
     (mmal_port_connected_pool_cb p b stc).2.2.1.pts = 0 ∧
     (mmal_port_connected_pool_cb p b stc).2.2.1.dts = 0) := by
  refine ⟨by simp [mmal_port_connected_pool_cb, bne_iff_ne], rfl, ?_⟩
  have h := send_buffer_result_buffer p
    { b with cmd := 0, length := 0, offset := 0, flags := 0, pts := 0, dts := 0 } stc
  have hb : (mmal_port_connected_pool_cb p b stc).2.2.1 =
      (mmal_port_send_buffer p
        { b with cmd := 0, length := 0, offset := 0, flags := 0, pts := 0, dts := 0 }
        stc).2.2.1 := rfl
  rw [hb]
  rcases h with h | h <;> rw [h] <;> exact ⟨rfl, rfl, rfl, rfl, rfl, rfl⟩

/-- Claim C4: mmal_port_connect rejects a pair that is not exactly one
input and one output with EINVAL, a pair with either side already
connected with EISCONN, and a pair with either side enabled with EINVAL;
in every rejection case both ports are returned untouched (in particular
connected_port, core_owns_connection and allocate_pool) and no hook runs
(empty trace).  The hypotheses that both ports carry a connect hook
reflect mmal_port_alloc, which installs the default connect hook on every
port it creates. -/
theorem C4_connect_rejections (p other : Port)
    (hc1 : p.pf_connect ≠ none) (hc2 : other.pf_connect ≠ none) :
    (¬ ((p.ptype = PortType.INPUT ∧ other.ptype = PortType.OUTPUT) ∨
        (p.ptype = PortType.OUTPUT ∧ other.ptype = PortType.INPUT)) →
      mmal_port_connect p other = (MSTATUS.EINVAL, p, other, [])) ∧
    (((p.ptype = PortType.INPUT ∧ other.ptype = PortType.OUTPUT) ∨
      (p.ptype = PortType.OUTPUT ∧ other.ptype = PortType.INPUT)) →
      (p.connected_port.isSome = true ∨ other.connected_port.isSome = true →
        mmal_port_connect p other = (MSTATUS.EISCONN, p, other, [])) ∧
      (p.connected_port = none → other.connected_port = none →
        p.is_enabled = true ∨ other.is_enabled = true →
        mmal_port_connect p other = (MSTATUS.EINVAL, p, other, []))) := by
  constructor
  · intro hbad
    cases hp : p.ptype <;> cases ho : other.ptype <;>
      simp_all [mmal_port_connect, set_input_or_output]
  · intro hgood
    constructor
    · intro hconn
      rcases hgood with ⟨h1, h2⟩ | ⟨h1, h2⟩ <;>
        rcases hconn with hc | hc <;>
          simp_all [mmal_port_connect, set_input_or_output]
    · intro hn1 hn2 hen
      rcases hgood with ⟨h1, h2⟩ | ⟨h1, h2⟩ <;>
        rcases hen with he | he <;>
          simp_all [mmal_port_connect, set_input_or_output]

/-- Claim C4, witness: two output ports are an invalid pair and connect
returns EINVAL without touching either port. -/
theorem C4_witness :
    mmal_port_connect basePort basePort = (MSTATUS.EINVAL, basePort, basePort, []) :=
  (C4_connect_rejections basePort basePort (by decide) (by decide)).1 (by decide)

/-- Claim C6: when mmal_port_format_commit finds the public format
pointer differing from the stored copy, it restores the pointer, returns
EFAULT, calls no hook (empty trace, so set_format is not invoked), leaves
buffer_num and buffer_size untouched, and the port is usable again: the
restored port satisfies the pointer invariant and a subsequent commit
reaches the set_format hook and returns its status. -/
theorem C6_format_commit_restores_pointer (p : Port) (outputs : List Port)
    (hne : p.format ≠ p.format_ptr_copy) :
    mmal_port_format_commit p outputs =
      (MSTATUS.EFAULT, { p with format := p.format_ptr_copy }, outputs, []) ∧
    (mmal_port_format_commit p outputs).2.1.buffer_num = p.buffer_num ∧
    (mmal_port_format_commit p outputs).2.1.buffer_size = p.buffer_size ∧
    (mmal_port_format_commit p outputs).2.1.format
      = (mmal_port_format_commit p outputs).2.1.format_ptr_copy ∧
    (∀ s, p.pf_set_format = some s →
      (mmal_port_format_commit (mmal_port_format_commit p outputs).2.1 outputs).1 = s) := by
  have hne' : (p.format != p.format_ptr_copy) = true := by
    simpa [bne_iff_ne] using hne
  have h1 : mmal_port_format_commit p outputs =
      (MSTATUS.EFAULT, { p with format := p.format_ptr_copy }, outputs, []) := by
    simp [mmal_port_format_commit, hne']
  refine ⟨h1, by rw [h1], by rw [h1], by rw [h1], ?_⟩
  intro s hset
  rw [h1]
  simp [mmal_port_format_commit, hset]

/-- Claim C6, witness: a concrete port with a clobbered format pointer. -/
theorem C6_witness :
    (mmal_port_format_commit portClobbered []).1 = MSTATUS.EFAULT ∧
    (mmal_port_format_commit portClobbered []).2.1
      = { portClobbered with format := portClobbered.format_ptr_copy } ∧
    (mmal_port_format_commit (mmal_port_format_commit portClobbered []).2.1 []).1
      = MSTATUS.SUCCESS := by
  have h := C6_format_commit_restores_pointer portClobbered [] (by decide)
  exact ⟨by rw [h.1], by rw [h.1], h.2.2.2.2 MSTATUS.SUCCESS rfl⟩

/-- Claim C7 fails on the code: the reset branch of
mmal_port_get_core_stats clears sizeof of the whole two-direction
statistics structure starting at the requested direction.  At this
concrete input (CORE_STATISTICS, direction RX, reset set, nonzero TX
statistics) the snapshot is correct and the RX statistics are zeroed, but
the TX statistics are zeroed as well, where the claim requires them left
unchanged. -/
theorem C7_reset_clobbers_other_direction :
    (mmal_port_parameter_get portWithStats paramResetRx).1 = MSTATUS.SUCCESS ∧
    (mmal_port_parameter_get portWithStats paramResetRx).2.2.1.core_stats.stats
      = portWithStats.stats_rx ∧
    (mmal_port_parameter_get portWithStats paramResetRx).2.1.stats_rx
      = CoreStats.zero ∧
    portWithStats.stats_tx ≠ CoreStats.zero ∧
    (mmal_port_parameter_get portWithStats paramResetRx).2.1.stats_tx
      = CoreStats.zero := by
  decide

/-- Claim C8: for a FORMAT_CHANGED event, a drawn event buffer whose
alloc_size is below the size of the format-changed descriptor plus one
format object plus one specific-format object is released and ENOSPC is
returned; otherwise that region of the payload is zeroed, the buffer
length is set to the region size, and SUCCESS is returned. -/
theorem C8_event_get_format_changed (sz1 sz2 sz3 : Nat) (b : Buffer) :
    (b.alloc_size < sz1 + sz2 + sz3 →
      mmal_port_event_get sz1 sz2 sz3 (some b) MMAL_EVENT_FORMAT_CHANGED =
        (MSTATUS.ENOSPC, none, [Event.bufferRelease])) ∧
    (sz1 + sz2 + sz3 ≤ b.alloc_size →
      (mmal_port_event_get sz1 sz2 sz3 (some b) MMAL_EVENT_FORMAT_CHANGED).1
        = MSTATUS.SUCCESS ∧
      ∃ nb, (mmal_port_event_get sz1 sz2 sz3 (some b) MMAL_EVENT_FORMAT_CHANGED).2.1
              = some nb ∧
        nb.length = sz1 + sz2 + sz3 ∧
        nb.payload.length = b.payload.length ∧
        ∀ i, ∀ hi : i < nb.payload.length, i < sz1 + sz2 + sz3 →
          nb.payload.get ⟨i, hi⟩ = 0) := by
  constructor
  · intro h
    simp [mmal_port_event_get, h]
  · intro h
    have h' : ¬ b.alloc_size < sz1 + sz2 + sz3 := Nat.not_lt.2 h
    refine ⟨by simp [mmal_port_event_get, h'], ?_⟩
    refine ⟨{ b with
                cmd := MMAL_EVENT_FORMAT_CHANGED
                length := sz1 + sz2 + sz3
                payload := b.payload.mapIdx
                  (fun i v => if i < sz1 + sz2 + sz3 then 0 else v) },
            by simp [mmal_port_event_get, h'], rfl, by simp, ?_⟩
    intro i hi hlt
    have hlen : i < b.payload.length := by simpa using hi
    rw [List.get_mapIdx b.payload _ i hlen]
    simp [hlt]

/-- Claim C8, witness: with structure sizes 4+4+4 a buffer of alloc_size
8 is too small (released, ENOSPC); with sizes 2+2+2 the same buffer is
accepted. -/
theorem C8_witness :
    mmal_port_event_get 4 4 4 (some baseBuffer) MMAL_EVENT_FORMAT_CHANGED =
      (MSTATUS.ENOSPC, none, [Event.bufferRelease]) ∧
    (mmal_port_event_get 2 2 2 (some baseBuffer) MMAL_EVENT_FORMAT_CHANGED).1
      = MSTATUS.SUCCESS :=
  ⟨(C8_event_get_format_changed 4 4 4 baseBuffer).1 (by decide),
   ((C8_event_get_format_changed 2 2 2 baseBuffer).2 (by decide)).1⟩

/-- Claim C9 fails on the code: mmal_port_free tolerates a null port and
releases the format object, transit_sema, transit_lock, send_lock, the
port lock and the port memory, but never deletes the stats_lock that
mmal_port_alloc creates. -/
theorem C9_free_leaks_stats_lock :
    mmal_port_free none = [] ∧
    Resource.statsLock ∈ mmal_port_alloc_resources ∧
    mmal_port_free (some basePort) =
      [Resource.formatObject, Resource.transitSema, Resource.transitLock,
       Resource.sendLock, Resource.portLock, Resource.portMemory] ∧
    Resource.statsLock ∉ mmal_port_free (some basePort) := by
  decide

/-- Statuses of mmal_port_get_core_stats: the core statistics read always
succeeds. -/
theorem get_core_stats_status (p : Port) (cs : CoreStatsParam) :
    (mmal_port_get_core_stats p cs).1 = MSTATUS.SUCCESS := by
  unfold mmal_port_get_core_stats
  rcases cs with ⟨dir, reset, st⟩
  cases dir <;> cases reset <;> rfl

/-- Claim C10: a port whose component leaves the parameter hooks NULL
does not fail with NOT_IMPLEMENTED up front: both parameter operations
fall through to the core's private parameters exactly as if a hook had
returned ENOSYS, and in particular a CORE_STATISTICS read succeeds. -/
theorem C10_null_parameter_hooks_fall_through (p : Port) (param : ParamHeader)
    (hg : p.pf_parameter_get = none) (hs : p.pf_parameter_set = none) :
    ((mmal_port_parameter_get p param).1 = (mmal_port_private_parameter_get p param).1 ∧
     (mmal_port_parameter_get p param).2.1 = (mmal_port_private_parameter_get p param).2.1 ∧
     (mmal_port_parameter_get p param).2.2.1
       = (mmal_port_private_parameter_get p param).2.2) ∧
    (mmal_port_parameter_set p param).1 = (mmal_port_private_parameter_set p param).1 ∧
    (param.id = MMAL_PARAMETER_CORE_STATISTICS →
      (mmal_port_parameter_get p param).1 = MSTATUS.SUCCESS) := by
  have hget : mmal_port_parameter_get p param =
      ((mmal_port_private_parameter_get p param).1,
       (mmal_port_private_parameter_get p param).2.1,
       (mmal_port_private_parameter_get p param).2.2, []) := by
    simp [mmal_port_parameter_get, hg]
  refine ⟨⟨by rw [hget], by rw [hget], by rw [hget]⟩, ?_, ?_⟩
  · simp [mmal_port_parameter_set, hs]
  · intro hid
    rw [hget]
    simp [mmal_port_private_parameter_get, hid, get_core_stats_status]

/-- Claim C10, witness: a CORE_STATISTICS read on a concrete port with no
parameter hooks succeeds. -/
theorem C10_witness :
    (mmal_port_parameter_get basePort paramReadTx).1 = MSTATUS.SUCCESS :=
  (C10_null_parameter_hooks_fall_through basePort paramReadTx rfl rfl).2.2 rfl

/-- Buffer negotiation never changes the enabled flag. -/
theorem adopt_peer_geometry_is_enabled (p : Port) (peer : Option Port) :
    (adopt_peer_geometry p peer).is_enabled = p.is_enabled := by
  cases peer with
  | none => rfl
  | some q =>
    by_cases h : p.ptype = PortType.OUTPUT <;> simp [adopt_peer_geometry, h]

/-- The maximum written as the source writes it. -/
theorem if_lt_eq_max (a b : Nat) : (if a < b then b else a) = max a b := by
  rcases Nat.lt_or_ge a b with h | h
  · simp [h, Nat.max_eq_right h.le]
  · simp [Nat.not_lt.2 h, Nat.max_eq_left h]

/-- On a connected output port, the buffer negotiation step adopts the
maxima of the two sides. -/
theorem adopt_peer_geometry_output (p q : Port) (hty : p.ptype = PortType.OUTPUT) :
    adopt_peer_geometry p (some q) =
      { p with buffer_num := max p.buffer_num q.buffer_num,
               buffer_size := max p.buffer_size q.buffer_size } := by
  simp only [adopt_peer_geometry, hty, if_true, gt_iff_lt, if_lt_eq_max]

/-- Claim C2: mmal_port_enable_locked returns EINVAL when the port is
already enabled (leaving the port untouched), and when the
exclusive-or between having a connected peer and having a client callback
fails, in either direction; in the latter cases the status is EINVAL, the
enable hook is not called (empty trace) and is_enabled stays false. -/
theorem C2_enable_locked_rejections
    (fuel : Nat) (p : Port) (peer : Option Port) (cb : Bool) (env : Env) :
    (p.is_enabled = true →
      mmal_port_enable_locked (fuel + 1) p peer cb env =
        (MSTATUS.EINVAL, p, peer, [])) ∧
    (p.is_enabled = false → peer.isSome = cb →
      (mmal_port_enable_locked (fuel + 1) p peer cb env).1 = MSTATUS.EINVAL ∧
      (mmal_port_enable_locked (fuel + 1) p peer cb env).2.1.is_enabled = false ∧
      (mmal_port_enable_locked (fuel + 1) p peer cb env).2.2.2 = []) := by
  constructor
  · intro hen
    simp [mmal_port_enable_locked, hen]
  · intro hen hx
    by_cases h1 : (adopt_peer_geometry p peer).buffer_num
        < (adopt_peer_geometry p peer).buffer_num_min
    · simp [mmal_port_enable_locked, hen, h1, adopt_peer_geometry_is_enabled]
    · by_cases h2 : (adopt_peer_geometry p peer).buffer_size
          < (adopt_peer_geometry p peer).buffer_size_min
      · simp [mmal_port_enable_locked, hen, h1, h2, adopt_peer_geometry_is_enabled]
      · simp [mmal_port_enable_locked, hen, h1, h2, hx, adopt_peer_geometry_is_enabled]

/-- Claim C2, witness: a disconnected port enabled with a null callback
violates the exclusive-or and is rejected with EINVAL, hook uncalled,
is_enabled still false. -/
theorem C2_witness :
    (mmal_port_enable_locked 1 basePort none false env0).1 = MSTATUS.EINVAL ∧
    (mmal_port_enable_locked 1 basePort none false env0).2.1.is_enabled = false ∧
    (mmal_port_enable_locked 1 basePort none false env0).2.2.2 = [] :=
  (C2_enable_locked_rejections 0 basePort none false env0).2 rfl rfl

/-- Claim C5: enabling a connected OUTPUT port first replaces buffer_num
and buffer_size by the maxima of its own and the peer's values, and only
then checks them against buffer_num_min and buffer_size_min; each failing
check returns EINVAL with the adopted geometry in place (and no hook
called). -/
theorem C5_enable_output_adopts_maximum_before_minima
    (fuel : Nat) (p q : Port) (cb : Bool) (env : Env)
    (hty : p.ptype = PortType.OUTPUT) (hen : p.is_enabled = false) :
    (max p.buffer_num q.buffer_num < p.buffer_num_min →
      mmal_port_enable_locked (fuel + 1) p (some q) cb env =
        (MSTATUS.EINVAL,
         { p with buffer_num := max p.buffer_num q.buffer_num,
                  buffer_size := max p.buffer_size q.buffer_size },
         some q, [])) ∧
    (p.buffer_num_min ≤ max p.buffer_num q.buffer_num →
      max p.buffer_size q.buffer_size < p.buffer_size_min →
      mmal_port_enable_locked (fuel + 1) p (some q) cb env =
        (MSTATUS.EINVAL,
         { p with buffer_num := max p.buffer_num q.buffer_num,
                  buffer_size := max p.buffer_size q.buffer_size },
         some q, [])) := by
  have hadopt := adopt_peer_geometry_output p q hty
  constructor
  · intro hnum
    simp [mmal_port_enable_locked, hen, hadopt, hnum]
  · intro hnum hsize
    have h1 : ¬ max p.buffer_num q.buffer_num < p.buffer_num_min := Nat.not_lt.2 hnum
    simp [mmal_port_enable_locked, hen, hadopt, h1, hsize]

/-- Claim C5, witness: output with buffer_num 2 and minimum 5, peer with
buffer_num 3; the adopted value 3 (not the original 2) is checked, still
fails the minimum, and the port keeps the adopted geometry. -/
theorem C5_witness :
    (mmal_port_enable_locked 1 portSmallNum (some portPeerNum) false env0).1
      = MSTATUS.EINVAL ∧
    (mmal_port_enable_locked 1 portSmallNum (some portPeerNum) false env0).2.1.buffer_num
      = 3 := by
  have h := (C5_enable_output_adopts_maximum_before_minima 0 portSmallNum portPeerNum
    false env0 rfl rfl).1 (by decide)
  rw [h]
  exact ⟨rfl, by decide⟩

end MmalPort
